import Mathlib

set_option autoImplicit false

/-!
Shallow embedding of the authentication/session core of the
WebService_TermProject repository:
  * `src/src/utils/jwt.js` — credential codec (sign/verify, token hashing)
  * `src/backend/src/routes/auth.js` — login and refresh-rotation handlers
  * `src/backend/src/middlewares/rateLimit.js` — fixed-window rate limiter
  * `src/backend/src/middlewares/requireWorkspaceMember.js` and
    `src/src/middlewares/requireWorkspaceMember.js` — authorization gates
  * `src/backend/src/middlewares/errorHandler.js` — generic error mapping
  * `src/backend/src/utils/errorCodes.js` — error code → HTTP status table

Time is modelled by a single abstract `Nat` clock shared by the codec and
the ledger (the source mixes seconds and milliseconds, which only rescales
the clock). A JWT is modelled as the signed claim set together with the
secret that signed it; signature verification is equality of secrets
(tamper-evidence of HMAC). SHA-256 (`hashToken`) is modelled as an
injective wrapper (collision resistance).
-/

/-- JWT claim payload as signed by the handlers: `{ sub, role }`. -/
structure JwtPayload where
  sub : String
  role : String
deriving DecidableEq, Repr

/-- An issued JWT: claim set, the secret that signed it, issued-at and
expiry timestamps.  A real token is an opaque string; signature validity
is modelled by remembering the signing secret. -/
structure SignedToken where
  payload : JwtPayload
  secret : String
  iat : Nat
  exp : Nat
deriving DecidableEq, Repr

/-- Errors thrown by `jsonwebtoken`'s `verify`: `TokenExpiredError` for an
expired token, `JsonWebTokenError` for a bad signature / malformed token. -/
inductive JwtError where
  | TokenExpiredError
  | JsonWebTokenError
deriving DecidableEq, Repr

/-- The environment slice consumed by `src/src/utils/jwt.js`: the two
independent signing secrets and the two parsed TTLs
(`accessTtlSeconds()` / `refreshTtlSeconds()`). -/
structure Env where
  accessSecret : String
  refreshSecret : String
  accessTtl : Nat
  refreshTtl : Nat
deriving DecidableEq, Repr

/-- `jwt.sign(payload, secret, { expiresIn: ttl })` at time `now`. -/
def jwtSign (payload : JwtPayload) (secret : String) (now ttl : Nat) : SignedToken :=
  { payload := payload, secret := secret, iat := now, exp := now + ttl }

/-- `jwt.verify(token, secret)` at time `now`: signature is checked first
(mismatch → `JsonWebTokenError`), then expiry (`now ≥ exp` →
`TokenExpiredError`). -/
def jwtVerify (token : SignedToken) (secret : String) (now : Nat) : Except JwtError JwtPayload :=
  if token.secret ≠ secret then Except.error JwtError.JsonWebTokenError
  else if token.exp ≤ now then Except.error JwtError.TokenExpiredError
  else Except.ok token.payload

/-- `signAccessToken` from `src/src/utils/jwt.js`. -/
def signAccessToken (env : Env) (payload : JwtPayload) (now : Nat) : SignedToken :=
  jwtSign payload env.accessSecret now env.accessTtl

/-- `signRefreshToken` from `src/src/utils/jwt.js`. -/
def signRefreshToken (env : Env) (payload : JwtPayload) (now : Nat) : SignedToken :=
  jwtSign payload env.refreshSecret now env.refreshTtl

/-- `verifyAccessToken` from `src/src/utils/jwt.js`. -/
def verifyAccessToken (env : Env) (token : SignedToken) (now : Nat) : Except JwtError JwtPayload :=
  jwtVerify token env.accessSecret now

/-- `verifyRefreshToken` from `src/src/utils/jwt.js`. -/
def verifyRefreshToken (env : Env) (token : SignedToken) (now : Nat) : Except JwtError JwtPayload :=
  jwtVerify token env.refreshSecret now

/-- SHA-256 hex digest of a token (`hashToken`), modelled as an injective
wrapper around the token. -/
structure TokenHash where
  val : SignedToken
deriving DecidableEq, Repr

/-- `hashToken` from `src/src/utils/jwt.js`. -/
def hashToken (token : SignedToken) : TokenHash :=
  TokenHash.mk token

/-- Value of a list of decimal digit characters. -/
def digitsToNat (ds : List Char) : Nat :=
  ds.foldl (fun acc c => acc * 10 + (c.toNat - 48)) 0

/-- JavaScript `parseInt(s, 10)`: skip leading whitespace, optional sign,
then the longest run of leading decimal digits; `none` models `NaN`
(no digits at all). -/
def parseInt10 (s : String) : Option Int :=
  let cs := s.toList.dropWhile Char.isWhitespace
  let signed : Int × List Char :=
    match cs with
    | '-' :: rest => (-1, rest)
    | '+' :: rest => (1, rest)
    | _ => (1, cs)
  let ds := signed.2.takeWhile Char.isDigit
  if ds.isEmpty then none
  else some (signed.1 * (digitsToNat ds : Int))

/-- The truthiness test `if (!userId)` applied to `parseInt(payload.sub, 10)`:
falsy exactly when the parse is `NaN` or `0`. -/
def subIdOk (s : String) : Prop :=
  ¬ (parseInt10 s = none ∨ parseInt10 s = some 0)

instance (s : String) : Decidable (subIdOk s) := by
  unfold subIdOk
  infer_instance

/-- A thrown JavaScript error, identified by what raised it:
`referenceError` is the `ReferenceError` raised when `sendError` evaluates
the undeclared identifier `expected`; `unknownErrorCode c` is the error
thrown by `assertKnownErrorCode` for a code that is not a key of the
`ERROR` table (a JS number used as a code appears here as its decimal
string); `storeError` stands for an error raised by a failed Redis
operation. -/
inductive JsError where
  | referenceError
  | unknownErrorCode (code : String)
  | storeError
deriving DecidableEq, Repr

/-- A rendered JSON error response: HTTP status, error code and message. -/
structure ErrorResponse where
  status : Nat
  code : String
  message : String
deriving DecidableEq, Repr

/-- The `ERROR` table of `src/backend/src/utils/errorCodes.js`: HTTP
status of each known error code (500 for the unknown-code fallback that
the table itself never reaches). -/
def errorStatus (code : String) : Nat :=
  if code = "BAD_REQUEST" then 400
  else if code = "VALIDATION_FAILED" then 400
  else if code = "INVALID_QUERY_PARAM" then 400
  else if code = "UNAUTHORIZED" then 401
  else if code = "TOKEN_EXPIRED" then 401
  else if code = "FORBIDDEN" then 403
  else if code = "RESOURCE_NOT_FOUND" then 404
  else if code = "USER_NOT_FOUND" then 404
  else if code = "DUPLICATE_RESOURCE" then 409
  else if code = "STATE_CONFLICT" then 409
  else if code = "UNPROCESSABLE_ENTITY" then 422
  else if code = "TOO_MANY_REQUESTS" then 429
  else 500

/-- Whether `code` is a key of the `ERROR` table
(`assertKnownErrorCode` succeeds exactly on these). -/
def knownErrorCode (code : String) : Bool :=
  code = "BAD_REQUEST" || code = "VALIDATION_FAILED" || code = "INVALID_QUERY_PARAM" ||
  code = "UNAUTHORIZED" || code = "TOKEN_EXPIRED" || code = "FORBIDDEN" ||
  code = "RESOURCE_NOT_FOUND" || code = "USER_NOT_FOUND" || code = "DUPLICATE_RESOURCE" ||
  code = "STATE_CONFLICT" || code = "UNPROCESSABLE_ENTITY" || code = "TOO_MANY_REQUESTS" ||
  code = "INTERNAL_SERVER_ERROR" || code = "DATABASE_ERROR" || code = "UNKNOWN_ERROR"

/-- `sendError` from `src/backend/src/utils/http.js`: first
`assertKnownErrorCode(code)` (throws `Unknown error code: <code>` for a
code outside the `ERROR` table), then the guard
`if (expected !== httpStatus)` evaluates the undeclared identifier
`expected` and throws a `ReferenceError` — so `sendError` throws on every
call and the `res.status(httpStatus).json(body)` line is unreachable: no
error response is ever rendered. -/
def sendError (code message : String) : Except JsError ErrorResponse :=
  if knownErrorCode code = false then Except.error (JsError.unknownErrorCode code)
  else Except.error JsError.referenceError

/-- What the client ultimately receives for a middleware chain that ends
in the error middleware: if the error handler itself throws, Express's
default error handler answers a plain HTTP 500 (no taxonomy body).
Modelled from Express's documented fallback behaviour. -/
def expressFinalStatus (r : Except JsError ErrorResponse) : Nat :=
  match r with
  | Except.ok resp => resp.status
  | Except.error _ => 500

/-- A row of `user_refresh_tokens` (`src/src/models/UserRefreshToken.js`):
`token_hash` is declared `unique: true`. -/
structure RefreshRecord where
  user_id : Int
  token_hash : TokenHash
  expires_at : Nat
  revoked_at : Option Nat
deriving DecidableEq, Repr

/-- A row of `users` (the fields read by the auth handlers). -/
structure UserRow where
  id : Int
  email : String
  role : String
  status : String
  password_hash : Option String
deriving DecidableEq, Repr

/-- The database state the auth handlers touch: the `users` table and the
`user_refresh_tokens` revocation ledger. -/
structure DB where
  users : List UserRow
  tokens : List RefreshRecord
deriving DecidableEq, Repr

/-- `UserRefreshToken.findOne({ where: { token_hash } })`: first row whose
hash matches. -/
def findTok (l : List RefreshRecord) (h : TokenHash) : Option RefreshRecord :=
  l.find? (fun r => decide (r.token_hash = h))

/-- `User.findOne({ where: { id } })`. -/
def findUserById (l : List UserRow) (i : Int) : Option UserRow :=
  l.find? (fun u => decide (u.id = i))

/-- `User.findOne({ where: { email } })`. -/
def findUserByEmail (l : List UserRow) (e : String) : Option UserRow :=
  l.find? (fun u => decide (u.email = e))

/-- `row.update({ revoked_at: new Date() })` on the row found by hash:
sets `revoked_at` on the first matching row. -/
def revokeFirst (l : List RefreshRecord) (h : TokenHash) (now : Nat) : List RefreshRecord :=
  match l with
  | [] => []
  | r :: rest =>
      if r.token_hash = h then { r with revoked_at := some now } :: rest
      else r :: revokeFirst rest h now

/-- Whether some row already stores this hash (the DB unique index on
`token_hash`). -/
def hashExists (l : List RefreshRecord) (h : TokenHash) : Bool :=
  l.any (fun r => decide (r.token_hash = h))

/-- `UserRefreshToken.create(...)`: the insert respects the unique index
on `token_hash`, raising a uniqueness violation (`Except.error ()`) if the
hash is already present. -/
def insertToken (l : List RefreshRecord) (row : RefreshRecord) :
    Except Unit (List RefreshRecord) :=
  if hashExists l row.token_hash then Except.error ()
  else Except.ok (l ++ [row])

/-- Outcome of `POST /api/auth/refresh`.  `ok` is the rendered 200
response (via the working `sendOk`).  On every error path the route calls
`sendError code message`: `errRendered resp` would be a returned error
response (unreachable with the staged `sendError`), and
`errThrown code message e` records that `sendError code message` threw
`e`, so the handler terminated with an uncaught throw and rendered no
response. -/
inductive RefreshResult where
  | ok (user : UserRow) (access : SignedToken) (refreshTok : SignedToken)
  | errRendered (resp : ErrorResponse)
  | errThrown (code : String) (message : String) (e : JsError)
deriving DecidableEq, Repr

/-- Whether a refresh outcome is the success case. -/
def RefreshResult.isOk : RefreshResult → Bool
  | RefreshResult.ok _ _ _ => true
  | RefreshResult.errRendered _ => false
  | RefreshResult.errThrown _ _ _ => false

/-- An error path of the refresh route: `return sendError(res, code, msg)`
— the result of the `sendError` call decides whether a response is
rendered or the handler throws. -/
def renderRefreshErr (code message : String) : RefreshResult :=
  match sendError code message with
  | Except.ok resp => RefreshResult.errRendered resp
  | Except.error e => RefreshResult.errThrown code message e

/-- The `msgMap` lookup with its `?? "failed to refresh token"` fallback in
the refresh handler's catch block. -/
def refreshMsg (code : String) : String :=
  if code = "TOKEN_EXPIRED" then "refresh token expired"
  else if code = "UNAUTHORIZED" then "invalid refresh token"
  else if code = "INTERNAL_SERVER_ERROR" then "failed to refresh token"
  else "failed to refresh token"

/-- Error thrown inside the refresh transaction: `coded c` is
`Object.assign(new Error(...), { _code: c })`; `plain` is any error with no
`_code` (e.g. a failed insert), read back as `INTERNAL_SERVER_ERROR`. -/
inductive TxError where
  | coded (code : String)
  | plain
deriving DecidableEq, Repr

/-- The body of `sequelize.transaction(...)` in `POST /api/auth/refresh`
(`src/backend/src/routes/auth.js` lines 301–336): look up and lock the
ledger row by hash, reject unknown / revoked / expired rows and inactive
users, revoke the row, sign the new pair and insert the new ledger row.
`insertFails` injects an infrastructure failure at the insert step. -/
def refreshTx (env : Env) (db : DB) (userId : Int) (oldHash : TokenHash) (now : Nat)
    (insertFails : Bool) :
    Except TxError (UserRow × SignedToken × SignedToken × DB) :=
  match findTok db.tokens oldHash with
  | none => Except.error (TxError.coded "UNAUTHORIZED")
  | some row =>
      if row.revoked_at ≠ none then Except.error (TxError.coded "UNAUTHORIZED")
      else if row.expires_at < now then Except.error (TxError.coded "TOKEN_EXPIRED")
      else
        match findUserById db.users userId with
        | none => Except.error (TxError.coded "UNAUTHORIZED")
        | some u =>
            if u.status ≠ "ACTIVE" then Except.error (TxError.coded "FORBIDDEN")
            else
              let revokedTokens := revokeFirst db.tokens oldHash now
              let newAccess := signAccessToken env { sub := toString u.id, role := u.role } now
              let newRefresh := signRefreshToken env { sub := toString u.id, role := u.role } now
              let newRow : RefreshRecord :=
                { user_id := u.id, token_hash := hashToken newRefresh,
                  expires_at := now + env.refreshTtl, revoked_at := none }
              if insertFails then Except.error TxError.plain
              else
                match insertToken revokedTokens newRow with
                | Except.error _ => Except.error TxError.plain
                | Except.ok tokens2 =>
                    Except.ok (u, newAccess, newRefresh, { db with tokens := tokens2 })

/-- `POST /api/auth/refresh` (`src/backend/src/routes/auth.js` lines
282–352).  The cookie is `none` when no refresh cookie is present.  A
transaction error rolls the ledger back (the returned `DB` is the input
`DB`); the catch block then computes (code, msgMap message) and calls
`sendError`, which itself throws, so the error is never rendered — the
pre-transaction rejections (missing cookie, codec failure, bad `sub`) sit
outside the try and their thrown `sendError` propagates directly. -/
def refreshHandler (env : Env) (db : DB) (cookie : Option SignedToken) (now : Nat)
    (insertFails : Bool) : RefreshResult × DB :=
  match cookie with
  | none => (renderRefreshErr "UNAUTHORIZED" "missing refresh token", db)
  | some token =>
      match verifyRefreshToken env token now with
      | Except.error JwtError.TokenExpiredError =>
          (renderRefreshErr "TOKEN_EXPIRED" "refresh token expired", db)
      | Except.error JwtError.JsonWebTokenError =>
          (renderRefreshErr "UNAUTHORIZED" "invalid refresh token", db)
      | Except.ok payload =>
          if ¬ subIdOk payload.sub then
            (renderRefreshErr "UNAUTHORIZED" "invalid refresh token", db)
          else
            let userId : Int := (parseInt10 payload.sub).getD 0
            let oldHash := hashToken token
            match refreshTx env db userId oldHash now insertFails with
            | Except.ok (u, newAccess, newRefresh, db2) =>
                (RefreshResult.ok u newAccess newRefresh, db2)
            | Except.error (TxError.coded c) =>
                (renderRefreshErr c (refreshMsg c), db)
            | Except.error TxError.plain =>
                (renderRefreshErr "INTERNAL_SERVER_ERROR"
                  (refreshMsg "INTERNAL_SERVER_ERROR"), db)

/-- Outcome of `POST /api/auth/login`: a rendered 200 success, a rendered
error response (unreachable with the staged `sendError`), or an uncaught
throw with the last (code, message) passed to `sendError`. -/
inductive LoginResult where
  | ok (user : UserRow) (access : SignedToken) (refreshTok : SignedToken)
  | errRendered (resp : ErrorResponse)
  | errThrown (code : String) (message : String) (e : JsError)
deriving DecidableEq, Repr

/-- Every failure inside the login route's try block — including the early
rejection branches, whose own `sendError` call throws — lands in the
route's catch, which calls
`sendError("INTERNAL_SERVER_ERROR", "failed to login")`; that call throws
again, so the handler ends in an uncaught throw and renders nothing. -/
def loginCatch : LoginResult :=
  match sendError "INTERNAL_SERVER_ERROR" "failed to login" with
  | Except.ok resp => LoginResult.errRendered resp
  | Except.error e => LoginResult.errThrown "INTERNAL_SERVER_ERROR" "failed to login" e

/-- The body of `POST /api/auth/login` after request-shape validation
(`src/backend/src/routes/auth.js` lines 204–231): find the user by email,
check status and password, sign the pair, store the refresh hash in the
ledger.  `bcryptCompare` is the external `bcrypt.compare`.  Every error
branch (each early rejection's `sendError` throws, as does a storage
failure such as a uniqueness violation on `token_hash`) funnels into the
route's catch and ends as `loginCatch` — an uncaught throw while
attempting `INTERNAL_SERVER_ERROR` / "failed to login"; the database is
unchanged on those paths. -/
def loginCore (env : Env) (bcryptCompare : String → String → Bool) (db : DB)
    (email password : String) (now : Nat) : LoginResult × DB :=
  match findUserByEmail db.users email with
  | none => (loginCatch, db)
  | some u =>
      if u.status ≠ "ACTIVE" then (loginCatch, db)
      else
        match u.password_hash with
        | none => (loginCatch, db)
        | some ph =>
            if bcryptCompare password ph then
              let access := signAccessToken env { sub := toString u.id, role := u.role } now
              let refreshTok := signRefreshToken env { sub := toString u.id, role := u.role } now
              let newRow : RefreshRecord :=
                { user_id := u.id, token_hash := hashToken refreshTok,
                  expires_at := now + env.refreshTtl, revoked_at := none }
              match insertToken db.tokens newRow with
              | Except.error _ => (loginCatch, db)
              | Except.ok tokens2 => (LoginResult.ok u access refreshTok, { db with tokens := tokens2 })
            else (loginCatch, db)

/-- `errorHandler` from `src/backend/src/middlewares/errorHandler.js`:
selects a branch by the error's `name`, but passes the numeric HTTP
status as `sendError`'s `code` argument (e.g.
`sendError(res, 409, "DUPLICATE_RESOURCE", …)`), so `assertKnownErrorCode`
throws `Unknown error code: <status>` on every branch and no taxonomy
response is ever rendered by the error middleware; Express's default
handler then answers a plain 500. -/
def errorHandler (errName : String) : Except JsError ErrorResponse :=
  if errName = "SequelizeValidationError" then sendError "400" "VALIDATION_FAILED"
  else if errName = "SequelizeUniqueConstraintError" then sendError "409" "DUPLICATE_RESOURCE"
  else if errName = "SequelizeForeignKeyConstraintError" then sendError "409" "STATE_CONFLICT"
  else sendError "500" "UNKNOWN_ERROR"

/-- A Redis counter value: current count and optional expiry time
(`none` = no TTL set, key persists). -/
structure RLEntry where
  count : Nat
  expiresAt : Option Nat
deriving DecidableEq, Repr

/-- The shared counter store: keys to counter entries. -/
def RedisState : Type :=
  List (String × RLEntry)

instance : DecidableEq RedisState := by
  unfold RedisState
  infer_instance

/-- Read a key, honouring expiry: an entry whose TTL has elapsed
(`now ≥ expiresAt`) is gone. -/
def redisGet (st : RedisState) (key : String) (now : Nat) : Option RLEntry :=
  match st.find? (fun p => decide (p.1 = key)) with
  | none => none
  | some p =>
      match p.2.expiresAt with
      | none => some p.2
      | some e => if now < e then some p.2 else none

/-- Store an entry under a key, replacing any previous entry. -/
def redisSet (st : RedisState) (key : String) (entry : RLEntry) : RedisState :=
  match st with
  | [] => [(key, entry)]
  | (k, e) :: rest =>
      if k = key then (key, entry) :: rest
      else (k, e) :: redisSet rest key entry

/-- `redis.incr(key)`: increments a live counter, or (re)creates it at 1
with no TTL when absent or expired.  Returns the new value. -/
def redisIncr (st : RedisState) (key : String) (now : Nat) : Nat × RedisState :=
  match redisGet st key now with
  | some e => (e.count + 1, redisSet st key { count := e.count + 1, expiresAt := e.expiresAt })
  | none => (1, redisSet st key { count := 1, expiresAt := none })

/-- `redis.expire(key, sec)`: sets the TTL of a live key; no-op on a
missing/expired key. -/
def redisExpire (st : RedisState) (key : String) (now sec : Nat) : RedisState :=
  match redisGet st key now with
  | some e => redisSet st key { count := e.count, expiresAt := some (now + sec) }
  | none => st

/-- Failure injection for the two Redis round-trips of the middleware:
`noFail`, a failure of `redis.incr`, or a failure of `redis.expire`
(which only runs when the increment created the counter). -/
inductive StoreFail where
  | noFail
  | failIncr
  | failExpire
deriving DecidableEq, Repr

/-- Outcome of one pass through `rateLimitMiddleware`:
`next` lets the request proceed (carrying the `RateLimit-Limit` and
`RateLimit-Remaining` header values and the counter value);
`rejected resp` would be a rendered `TOO_MANY_REQUESTS` response
(unreachable with the staged `sendError`); `nextErr e` is the `catch`
branch forwarding an error — a failed Redis call, or the `ReferenceError`
thrown by `sendError` on the over-quota branch — via `next(err)` to the
error middleware. -/
inductive RLResult where
  | next (limit remaining current : Nat)
  | rejected (resp : ErrorResponse)
  | nextErr (e : JsError)
deriving DecidableEq, Repr

/-- Whether the middleware let the request through to the handler. -/
def RLResult.allowed : RLResult → Bool
  | RLResult.next _ _ _ => true
  | RLResult.rejected _ => false
  | RLResult.nextErr _ => false

/-- `rateLimitMiddleware` from `src/backend/src/middlewares/rateLimit.js`:
increment the counter, set the TTL on the increment that created it
(`current === 1`), attach headers, and on `current > max` call
`sendError("TOO_MANY_REQUESTS", "rate limit exceeded")` — which throws
inside the try, so the catch forwards it via `next(err)` exactly like a
Redis failure.  `inj` injects a Redis failure at the `incr` (store
unchanged) or at the `expire` (counter already incremented, left with no
TTL). -/
def rateLimitMiddleware (windowSec maxCount : Nat) (key : String) (st : RedisState)
    (now : Nat) (inj : StoreFail) : RLResult × RedisState :=
  if inj = StoreFail.failIncr then (RLResult.nextErr JsError.storeError, st)
  else
    let r1 := redisIncr st key now
    let current := r1.1
    if current = 1 ∧ inj = StoreFail.failExpire then (RLResult.nextErr JsError.storeError, r1.2)
    else
      let st2 := if current = 1 then redisExpire r1.2 key now windowSec else r1.2
      if maxCount < current then
        match sendError "TOO_MANY_REQUESTS" "rate limit exceeded" with
        | Except.ok resp => (RLResult.rejected resp, st2)
        | Except.error e => (RLResult.nextErr e, st2)
      else (RLResult.next maxCount (maxCount - current) current, st2)

/-- A row of `workspaces` (the fields the gates read). -/
structure Workspace where
  id : Int
  owner_id : Int
deriving DecidableEq, Repr

/-- A membership fact: a row of `workspace_members`. -/
structure WorkspaceMember where
  workspace_id : Int
  user_id : Int
  member_role : String
deriving DecidableEq, Repr

/-- The tables read by the workspace gates. -/
structure WsDB where
  workspaces : List Workspace
  members : List WorkspaceMember
deriving DecidableEq, Repr

/-- `req.auth` as set by the authentication middleware. -/
structure AuthCtx where
  userId : Int
  role : String
deriving DecidableEq, Repr

/-- `models.Workspace.findByPk(id)`. -/
def findWorkspace (l : List Workspace) (i : Int) : Option Workspace :=
  l.find? (fun w => decide (w.id = i))

/-- `models.WorkspaceMember.findOne({ where: { workspace_id, user_id } })`. -/
def findMember (l : List WorkspaceMember) (wid uid : Int) : Option WorkspaceMember :=
  l.find? (fun m => decide (m.workspace_id = wid ∧ m.user_id = uid))

namespace Backend

/-- Outcome of the backend gate: `next ws` proceeds with `req.workspace`
set; `responded resp` would be a rendered rejection (unreachable with the
staged `sendError`); `nextErr code message e` records that the rejection's
`sendError code message` threw `e` inside the gate's try, so the catch
forwarded it via `next(err)` to the error middleware. -/
inductive GateResult where
  | next (ws : Workspace)
  | responded (resp : ErrorResponse)
  | nextErr (code : String) (message : String) (e : JsError)
deriving DecidableEq, Repr

/-- Whether the backend gate let the request through. -/
def GateResult.isNext : GateResult → Bool
  | GateResult.next _ => true
  | GateResult.responded _ => false
  | GateResult.nextErr _ _ _ => false

/-- A rejection branch of the backend gate: `return sendError(res, code,
message)` inside the try — the thrown error is caught and forwarded. -/
def gateErr (code message : String) : GateResult :=
  match sendError code message with
  | Except.ok resp => GateResult.responded resp
  | Except.error e => GateResult.nextErr code message e

/-- `requireWorkspaceMember` from
`src/backend/src/middlewares/requireWorkspaceMember.js` (lines 10–52):
auth check, workspace-id validation (`Number.isInteger` and `> 0`),
workspace resolution (attempting `RESOURCE_NOT_FOUND` when absent), then
the ADMIN bypass, then the membership lookup.  Every rejection calls
`sendError` inside the try, which throws, so the catch forwards the error
via `next(err)`. -/
def requireWorkspaceMember (allowAdmin : Bool) (auth : Option AuthCtx) (raw : String)
    (db : WsDB) : GateResult :=
  match auth with
  | none => gateErr "UNAUTHORIZED" "missing auth"
  | some a =>
      if a.userId = 0 then gateErr "UNAUTHORIZED" "missing auth"
      else
        match parseInt10 raw with
        | none => gateErr "BAD_REQUEST" "invalid workspaceId"
        | some wid =>
            if wid ≤ 0 then gateErr "BAD_REQUEST" "invalid workspaceId"
            else
              match findWorkspace db.workspaces wid with
              | none => gateErr "RESOURCE_NOT_FOUND" "workspace not found"
              | some ws =>
                  if allowAdmin ∧ a.role = "ADMIN" then GateResult.next ws
                  else
                    match findMember db.members wid a.userId with
                    | none => gateErr "FORBIDDEN" "not a workspace member"
                    | some _ => GateResult.next ws

end Backend

namespace Core

/-- Outcome of the `src/src` gate: `next wid role` proceeds with
`req.ws = { workspaceId, memberRole }`; `err` is a rejection
(status, code, message). -/
inductive GateResult where
  | next (workspaceId : Int) (memberRole : String)
  | err (status : Nat) (code : String) (message : String)
deriving DecidableEq, Repr

/-- Whether the `src/src` gate let the request through. -/
def GateResult.isNext : GateResult → Bool
  | GateResult.next _ _ => true
  | GateResult.err _ _ _ => false

/-- `requireWorkspaceMember` from
`src/src/middlewares/requireWorkspaceMember.js` (lines 10–33):
workspace-id truthiness check (`!workspaceId` — `NaN` or `0` rejected),
auth check, then the ADMIN bypass with no database access at all, then the
membership lookup (no workspace-existence check in this variant).
Its rejection branches call the `sendError(res, status, code, message)` of
`src/src/utils/http.js`, a module absent from the staged sources.
Modelled from the spec: that `sendError` renders the (status, code,
message) error response, per the call sites and the spec's error
taxonomy; the ADMIN bypass path needs no `sendError` at all. -/
def requireWorkspaceMember (allowAdmin : Bool) (auth : Option AuthCtx) (raw : String)
    (db : WsDB) : GateResult :=
  let pid := parseInt10 raw
  if pid = none ∨ pid = some 0 then GateResult.err 400 "BAD_REQUEST" "invalid workspaceId"
  else
    let wid := pid.getD 0
    match auth with
    | none => GateResult.err 401 "UNAUTHORIZED" "missing auth"
    | some a =>
        if a.userId = 0 then GateResult.err 401 "UNAUTHORIZED" "missing auth"
        else if allowAdmin ∧ a.role = "ADMIN" then GateResult.next wid "ADMIN"
        else
          match findMember db.members wid a.userId with
          | none => GateResult.err 403 "FORBIDDEN" "not a workspace member"
          | some m => GateResult.next wid m.member_role

end Core

/-! ## Helper lemmas about the codec and the ledger primitives -/

theorem jwtVerify_ok_elim (t : SignedToken) (s : String) (now : Nat) (p : JwtPayload)
    (h : jwtVerify t s now = Except.ok p) :
    t.secret = s ∧ now < t.exp ∧ p = t.payload := by
  unfold jwtVerify at h
  by_cases h1 : t.secret ≠ s
  · simp [h1] at h
  · by_cases h2 : t.exp ≤ now
    · simp [h1, h2] at h
    · simp [h1, h2] at h
      exact ⟨not_not.mp h1, Nat.lt_of_not_le h2, h.symm⟩

theorem jwtVerify_ok_intro (t : SignedToken) (s : String) (now : Nat)
    (h1 : t.secret = s) (h2 : now < t.exp) :
    jwtVerify t s now = Except.ok t.payload := by
  unfold jwtVerify
  simp [h1, Nat.not_le.mpr h2]

theorem findTok_revokeFirst (l : List RefreshRecord) (h : TokenHash) (now : Nat)
    (row : RefreshRecord) (hf : findTok l h = some row) :
    findTok (revokeFirst l h now) h = some { row with revoked_at := some now } := by
  induction l with
  | nil => simp [findTok, List.find?] at hf
  | cons r rest ih =>
      by_cases hh : r.token_hash = h
      · unfold findTok List.find? at hf
        simp [hh] at hf
        unfold revokeFirst
        rw [if_pos hh]
        unfold findTok List.find?
        simp [hh, ← hf]
      · unfold findTok List.find? at hf
        simp [hh] at hf
        unfold revokeFirst
        rw [if_neg hh]
        unfold findTok List.find?
        simp [hh]
        exact ih hf

theorem findTok_append_of_some (l1 l2 : List RefreshRecord) (h : TokenHash)
    (row : RefreshRecord) (hf : findTok l1 h = some row) :
    findTok (l1 ++ l2) h = some row := by
  unfold findTok at hf ⊢
  rw [List.find?_append, hf]
  rfl

theorem insertToken_ok_elim (l : List RefreshRecord) (row : RefreshRecord)
    (l2 : List RefreshRecord) (h : insertToken l row = Except.ok l2) :
    hashExists l row.token_hash = false ∧ l2 = l ++ [row] := by
  unfold insertToken at h
  by_cases hex : hashExists l row.token_hash
  · simp [hex] at h
  · simp [hex] at h
    exact ⟨Bool.of_not_eq_true hex, h.symm⟩

theorem insertToken_dup (l : List RefreshRecord) (row : RefreshRecord)
    (h : hashExists l row.token_hash = true) :
    insertToken l row = Except.error () := by
  unfold insertToken
  simp [h]

theorem refreshTx_ok_inv (env : Env) (db : DB) (userId : Int) (oldHash : TokenHash)
    (now : Nat) (fl : Bool) (u : UserRow) (a r : SignedToken) (db2 : DB)
    (h : refreshTx env db userId oldHash now fl = Except.ok (u, a, r, db2)) :
    ∃ row, findTok db.tokens oldHash = some row ∧ row.revoked_at = none ∧
      findTok db2.tokens oldHash = some { row with revoked_at := some now } := by
  unfold refreshTx at h
  cases hf : findTok db.tokens oldHash with
  | none => rw [hf] at h; cases h
  | some row =>
      rw [hf] at h
      by_cases hr : row.revoked_at = none
      · simp only [hr, ne_eq, not_true_eq_false, if_false, if_neg] at h
        refine ⟨row, rfl, hr, ?_⟩
        by_cases he : row.expires_at < now
        · simp [he] at h
        · simp only [he, if_false] at h
          cases hu : findUserById db.users userId with
          | none => rw [hu] at h; cases h
          | some u2 =>
              rw [hu] at h
              by_cases hact : u2.status = "ACTIVE"
              · simp only [hact, ne_eq, not_true_eq_false, if_false] at h
                by_cases hfl : fl
                · simp [hfl] at h
                · simp only [hfl, if_false] at h
                  cases hins : insertToken (revokeFirst db.tokens oldHash now)
                      { user_id := u2.id,
                        token_hash := hashToken (signRefreshToken env
                          { sub := toString u2.id, role := u2.role } now),
                        expires_at := now + env.refreshTtl, revoked_at := none } with
                  | error e => rw [hins] at h; cases h
                  | ok tokens2 =>
                      rw [hins] at h
                      injection h with h2
                      obtain ⟨hins1, hins2⟩ := insertToken_ok_elim _ _ _ hins
                      have hdb2 : db2 = { db with tokens := tokens2 } := by
                        have := congrArg (fun q => q.2.2.2) h2
                        simpa using this.symm
                      rw [hdb2]
                      show findTok tokens2 oldHash = _
                      rw [hins2]
                      exact findTok_append_of_some _ _ _ _
                        (findTok_revokeFirst db.tokens oldHash now row hf)
              · simp [hact] at h
      · simp [hr] at h

/-! ## Characterization lemmas for the refresh handler -/

theorem refreshHandler_some (env : Env) (db : DB) (t : SignedToken) (now : Nat) (fl : Bool) :
    refreshHandler env db (some t) now fl =
      match verifyRefreshToken env t now with
      | Except.error JwtError.TokenExpiredError =>
          (renderRefreshErr "TOKEN_EXPIRED" "refresh token expired", db)
      | Except.error JwtError.JsonWebTokenError =>
          (renderRefreshErr "UNAUTHORIZED" "invalid refresh token", db)
      | Except.ok payload =>
          if ¬ subIdOk payload.sub then
            (renderRefreshErr "UNAUTHORIZED" "invalid refresh token", db)
          else
            match refreshTx env db ((parseInt10 payload.sub).getD 0) (hashToken t) now fl with
            | Except.ok (u, a2, r2, db2) => (RefreshResult.ok u a2 r2, db2)
            | Except.error (TxError.coded c) => (renderRefreshErr c (refreshMsg c), db)
            | Except.error TxError.plain =>
                (renderRefreshErr "INTERNAL_SERVER_ERROR"
                  (refreshMsg "INTERNAL_SERVER_ERROR"), db) := rfl

theorem refresh_err_expired (env : Env) (db : DB) (t : SignedToken) (now : Nat)
    (fl : Bool) (hv : verifyRefreshToken env t now = Except.error JwtError.TokenExpiredError) :
    refreshHandler env db (some t) now fl =
      (RefreshResult.errThrown "TOKEN_EXPIRED" "refresh token expired"
        JsError.referenceError, db) := by
  rw [refreshHandler_some, hv]
  rfl

theorem refresh_err_invalid_sig (env : Env) (db : DB) (t : SignedToken) (now : Nat)
    (fl : Bool) (hv : verifyRefreshToken env t now = Except.error JwtError.JsonWebTokenError) :
    refreshHandler env db (some t) now fl =
      (RefreshResult.errThrown "UNAUTHORIZED" "invalid refresh token"
        JsError.referenceError, db) := by
  rw [refreshHandler_some, hv]
  rfl

theorem refresh_reduce_sub (env : Env) (db : DB) (t : SignedToken) (now : Nat) (fl : Bool)
    (hv : verifyRefreshToken env t now = Except.ok t.payload) :
    refreshHandler env db (some t) now fl =
      (if ¬ subIdOk t.payload.sub then
        (renderRefreshErr "UNAUTHORIZED" "invalid refresh token", db)
      else
        match refreshTx env db ((parseInt10 t.payload.sub).getD 0) (hashToken t) now fl with
        | Except.ok (u, a2, r2, db2) => (RefreshResult.ok u a2 r2, db2)
        | Except.error (TxError.coded c) => (renderRefreshErr c (refreshMsg c), db)
        | Except.error TxError.plain =>
            (renderRefreshErr "INTERNAL_SERVER_ERROR"
              (refreshMsg "INTERNAL_SERVER_ERROR"), db)) := by
  rw [refreshHandler_some, hv]

theorem refresh_err_of_badsub (env : Env) (db : DB) (t : SignedToken) (now : Nat)
    (fl : Bool) (hv : verifyRefreshToken env t now = Except.ok t.payload)
    (hs : ¬ subIdOk t.payload.sub) :
    refreshHandler env db (some t) now fl =
      (RefreshResult.errThrown "UNAUTHORIZED" "invalid refresh token"
        JsError.referenceError, db) := by
  rw [refresh_reduce_sub env db t now fl hv, if_pos hs]
  rfl

theorem refresh_reduce_tx (env : Env) (db : DB) (t : SignedToken) (now : Nat) (fl : Bool)
    (hv : verifyRefreshToken env t now = Except.ok t.payload)
    (hs : subIdOk t.payload.sub) :
    refreshHandler env db (some t) now fl =
      match refreshTx env db ((parseInt10 t.payload.sub).getD 0) (hashToken t) now fl with
      | Except.ok (u, a2, r2, db2) => (RefreshResult.ok u a2 r2, db2)
      | Except.error (TxError.coded c) => (renderRefreshErr c (refreshMsg c), db)
      | Except.error TxError.plain =>
          (renderRefreshErr "INTERNAL_SERVER_ERROR" (refreshMsg "INTERNAL_SERVER_ERROR"), db) := by
  rw [refresh_reduce_sub env db t now fl hv, if_neg (not_not_intro hs)]

theorem refresh_err_of_notfound (env : Env) (db : DB) (t : SignedToken) (now : Nat) (fl : Bool)
    (hv : verifyRefreshToken env t now = Except.ok t.payload)
    (hs : subIdOk t.payload.sub)
    (hfind : findTok db.tokens (hashToken t) = none) :
    refreshHandler env db (some t) now fl =
      (RefreshResult.errThrown "UNAUTHORIZED" "invalid refresh token"
        JsError.referenceError, db) := by
  rw [refresh_reduce_tx env db t now fl hv hs]
  have htx : refreshTx env db ((parseInt10 t.payload.sub).getD 0) (hashToken t) now fl =
      Except.error (TxError.coded "UNAUTHORIZED") := by
    unfold refreshTx
    rw [hfind]
  rw [htx]
  rfl

theorem refresh_err_of_revoked (env : Env) (db : DB) (t : SignedToken) (now : Nat) (fl : Bool)
    (row : RefreshRecord)
    (hv : verifyRefreshToken env t now = Except.ok t.payload)
    (hs : subIdOk t.payload.sub)
    (hfind : findTok db.tokens (hashToken t) = some row)
    (hrev : row.revoked_at ≠ none) :
    refreshHandler env db (some t) now fl =
      (RefreshResult.errThrown "UNAUTHORIZED" "invalid refresh token"
        JsError.referenceError, db) := by
  rw [refresh_reduce_tx env db t now fl hv hs]
  have htx : refreshTx env db ((parseInt10 t.payload.sub).getD 0) (hashToken t) now fl =
      Except.error (TxError.coded "UNAUTHORIZED") := by
    unfold refreshTx
    rw [hfind]
    simp [hrev]
  rw [htx]
  rfl

theorem renderRefreshErr_isOk (code message : String) :
    (renderRefreshErr code message).isOk = false := by
  unfold renderRefreshErr sendError
  by_cases h : knownErrorCode code = false
  · simp [h, RefreshResult.isOk]
  · simp [h, RefreshResult.isOk]

theorem refresh_ok_inv (env : Env) (db : DB) (t : SignedToken) (now : Nat) (fl : Bool)
    (hok : ((refreshHandler env db (some t) now fl).1).isOk = true) :
    verifyRefreshToken env t now = Except.ok t.payload ∧ subIdOk t.payload.sub ∧
    ∃ row, findTok db.tokens (hashToken t) = some row ∧ row.revoked_at = none ∧
      findTok ((refreshHandler env db (some t) now fl).2).tokens (hashToken t) =
        some { row with revoked_at := some now } := by
  cases hv : verifyRefreshToken env t now with
  | error e =>
      cases e with
      | TokenExpiredError =>
          rw [refresh_err_expired env db t now fl hv] at hok
          simp [RefreshResult.isOk] at hok
      | JsonWebTokenError =>
          rw [refresh_err_invalid_sig env db t now fl hv] at hok
          simp [RefreshResult.isOk] at hok
  | ok p =>
      have hp : p = t.payload := (jwtVerify_ok_elim t env.refreshSecret now p hv).2.2
      subst hp
      by_cases hs : subIdOk t.payload.sub
      · refine ⟨rfl, hs, ?_⟩
        rw [refresh_reduce_tx env db t now fl hv hs] at hok ⊢
        cases htx : refreshTx env db ((parseInt10 t.payload.sub).getD 0) (hashToken t) now fl with
        | error e =>
            rw [htx] at hok
            cases e with
            | coded c => simp [renderRefreshErr_isOk] at hok
            | plain => simp [renderRefreshErr_isOk] at hok
        | ok quad =>
            obtain ⟨u, a2, r2, db2⟩ := quad
            obtain ⟨row, hf, hr, hf2⟩ :=
              refreshTx_ok_inv env db ((parseInt10 t.payload.sub).getD 0) (hashToken t)
                now fl u a2 r2 db2 htx
            exact ⟨row, hf, hr, hf2⟩
      · rw [refresh_err_of_badsub env db t now fl hv hs] at hok
        simp [RefreshResult.isOk] at hok

/-- Rollback guarantee of the refresh transaction: every non-success
outcome leaves the database exactly as it was. -/
theorem refresh_rollback (env : Env) (db : DB) (cookie : Option SignedToken) (now : Nat)
    (fl : Bool)
    (h : ((refreshHandler env db cookie now fl).1).isOk = false) :
    (refreshHandler env db cookie now fl).2 = db := by
  cases cookie with
  | none => rfl
  | some t =>
      cases hv : verifyRefreshToken env t now with
      | error e =>
          cases e with
          | TokenExpiredError => rw [refresh_err_expired env db t now fl hv]
          | JsonWebTokenError => rw [refresh_err_invalid_sig env db t now fl hv]
      | ok p =>
          have hp : p = t.payload := (jwtVerify_ok_elim t env.refreshSecret now p hv).2.2
          subst hp
          by_cases hs : subIdOk t.payload.sub
          · rw [refresh_reduce_tx env db t now fl hv hs] at h ⊢
            cases htx : refreshTx env db ((parseInt10 t.payload.sub).getD 0)
                (hashToken t) now fl with
            | ok quad =>
                obtain ⟨u, a2, r2, db2⟩ := quad
                rw [htx] at h
                simp [RefreshResult.isOk] at h
            | error e =>
                cases e with
                | coded c2 => rfl
                | plain => rfl
          · rw [refresh_err_of_badsub env db t now fl hv hs]

/-! ## Concrete fixtures -/

/-- A concrete environment with distinct access/refresh secrets. -/
def env0 : Env :=
  { accessSecret := "as", refreshSecret := "rs", accessTtl := 100, refreshTtl := 1000 }

/-- Claim payload of the fixture user. -/
def payload0 : JwtPayload :=
  { sub := "1", role := "USER" }

/-- A refresh token issued to the fixture user at time 0. -/
def tok0 : SignedToken :=
  signRefreshToken env0 payload0 0

/-- The fixture user. -/
def user0 : UserRow :=
  { id := 1, email := "u1@test.com", role := "USER", status := "ACTIVE",
    password_hash := some "H" }

/-- The ledger record stored for `tok0` at login. -/
def rec0 : RefreshRecord :=
  { user_id := 1, token_hash := hashToken tok0, expires_at := 1000, revoked_at := none }

/-- Database state right after the fixture login. -/
def db0 : DB :=
  { users := [user0], tokens := [rec0] }

/-- Database state after a successful rotation of `tok0` at time 5. -/
def db0r : DB :=
  (refreshHandler env0 db0 (some tok0) 5 false).2

/-! ## Claim theorems -/

/-- C1 (counterexample): a rotation with `tok0` succeeds at time 5, yet a
subsequent attempt with the same credential never fails "with the
invalid-credential error": before the token's own expiry the handler
throws while attempting the `UNAUTHORIZED` rendering (`sendError` raises a
`ReferenceError` on the undeclared `expected`), so no error response is
returned at all; and once the token's `exp` has passed, the attempted code
is `TOKEN_EXPIRED`, not the invalid-credential code. -/
theorem rotation_replay_cex :
    ((refreshHandler env0 db0 (some tok0) 5 false).1).isOk = true ∧
    (refreshHandler env0 db0r (some tok0) 500 false).1 =
      RefreshResult.errThrown "UNAUTHORIZED" "invalid refresh token" JsError.referenceError ∧
    RefreshResult.errThrown "UNAUTHORIZED" "invalid refresh token" JsError.referenceError ≠
      RefreshResult.errRendered
        { status := 401, code := "UNAUTHORIZED", message := "invalid refresh token" } ∧
    (refreshHandler env0 db0r (some tok0) 1000 false).1 =
      RefreshResult.errThrown "TOKEN_EXPIRED" "refresh token expired" JsError.referenceError := by
  refine ⟨by decide, by decide, by decide, by decide⟩

/-- C1 (amended): after a successful rotation of a long-lived credential,
its ledger record is revoked and no later attempt with the same credential
ever succeeds; while the credential is inside its signature-expiry window
every such attempt deterministically takes the invalid-credential branch —
the handler calls `sendError("UNAUTHORIZED", "invalid refresh token")`,
which throws before rendering, so the attempt ends in an uncaught throw
with no response — and the ledger is unchanged. -/
theorem rotation_exactly_once (env : Env) (db : DB) (t : SignedToken) (now : Nat) (fl : Bool)
    (hok : ((refreshHandler env db (some t) now fl).1).isOk = true) :
    ∀ now2 fl2,
      ((refreshHandler env (refreshHandler env db (some t) now fl).2 (some t) now2 fl2).1).isOk
          = false ∧
      (now2 < t.exp →
        refreshHandler env (refreshHandler env db (some t) now fl).2 (some t) now2 fl2 =
          (RefreshResult.errThrown "UNAUTHORIZED" "invalid refresh token"
            JsError.referenceError,
            (refreshHandler env db (some t) now fl).2)) := by
  obtain ⟨hv, hs, row, hf, hr, hf2⟩ := refresh_ok_inv env db t now fl hok
  have hsec : t.secret = env.refreshSecret :=
    (jwtVerify_ok_elim t env.refreshSecret now t.payload hv).1
  intro now2 fl2
  constructor
  · cases hv2 : verifyRefreshToken env t now2 with
    | error e =>
        cases e with
        | TokenExpiredError =>
            rw [refresh_err_expired env (refreshHandler env db (some t) now fl).2 t now2 fl2 hv2]
            rfl
        | JsonWebTokenError =>
            rw [refresh_err_invalid_sig env (refreshHandler env db (some t) now fl).2 t now2 fl2 hv2]
            rfl
    | ok p =>
        have hp : p = t.payload := (jwtVerify_ok_elim t env.refreshSecret now2 p hv2).2.2
        subst hp
        rw [refresh_err_of_revoked env (refreshHandler env db (some t) now fl).2 t now2 fl2
          { row with revoked_at := some now } hv2 hs hf2 (by simp)]
        rfl
  · intro hlt
    have hv2 : verifyRefreshToken env t now2 = Except.ok t.payload :=
      jwtVerify_ok_intro t env.refreshSecret now2 hsec hlt
    exact refresh_err_of_revoked env (refreshHandler env db (some t) now fl).2 t now2 fl2
      { row with revoked_at := some now } hv2 hs hf2 (by simp)

/-- C1 witness: concrete instantiation — after the successful rotation at
time 5, a replay at time 500 (before the token's expiry) ends in the
thrown invalid-credential branch with the ledger unchanged. -/
theorem rotation_exactly_once_witness :
    ((refreshHandler env0 db0r (some tok0) 500 false).1).isOk = false ∧
    refreshHandler env0 db0r (some tok0) 500 false =
      (RefreshResult.errThrown "UNAUTHORIZED" "invalid refresh token"
        JsError.referenceError, db0r) := by
  have h := rotation_exactly_once env0 db0 tok0 5 false (by decide) 500 false
  exact ⟨h.1, h.2 (by decide)⟩

/-- C2: rotation error atomicity — (i) every non-success outcome of the
rotation endpoint leaves the revocation ledger (and the whole database)
unchanged, because every failure inside the transaction rolls it back; and
(ii) a credential that fails Codec verification is rejected before any
ledger access: the outcome is the same for every database state, and that
state is returned untouched. -/
theorem rotation_error_atomicity (env : Env) (db : DB) (cookie : Option SignedToken)
    (now : Nat) (fl : Bool) :
    (((refreshHandler env db cookie now fl).1).isOk = false →
        (refreshHandler env db cookie now fl).2 = db) ∧
    (∀ t, cookie = some t →
      ∀ e, verifyRefreshToken env t now = Except.error e →
      ∀ dbX : DB,
        (refreshHandler env dbX cookie now fl).1 = (refreshHandler env db cookie now fl).1 ∧
        (refreshHandler env dbX cookie now fl).2 = dbX) := by
  constructor
  · exact fun h => refresh_rollback env db cookie now fl h
  · intro t hc e he dbX
    subst hc
    cases e with
    | TokenExpiredError =>
        rw [refresh_err_expired env dbX t now fl he, refresh_err_expired env db t now fl he]
        exact ⟨rfl, rfl⟩
    | JsonWebTokenError =>
        rw [refresh_err_invalid_sig env dbX t now fl he, refresh_err_invalid_sig env db t now fl he]
        exact ⟨rfl, rfl⟩

/-- C2 witness: a missing-cookie rejection leaves `db0` unchanged, and an
expired-token rejection produces the same outcome on `db0r` as on `db0`. -/
theorem rotation_error_atomicity_witness :
    (refreshHandler env0 db0 none 0 false).2 = db0 ∧
    (refreshHandler env0 db0r (some tok0) 1000 false).1 =
      (refreshHandler env0 db0 (some tok0) 1000 false).1 := by
  constructor
  · exact (rotation_error_atomicity env0 db0 none 0 false).1 (by decide)
  · exact ((rotation_error_atomicity env0 db0 (some tok0) 1000 false).2 tok0 rfl
      JwtError.TokenExpiredError rfl db0r).1

/-- Ledger record for `tok0` whose `expires_at` is already in the past at
time 5, `revoked_at` null. -/
def recExpired : RefreshRecord :=
  { user_id := 1, token_hash := hashToken tok0, expires_at := 3, revoked_at := none }

/-- Database holding only the expired (but unrevoked) record. -/
def dbExpired : DB :=
  { users := [user0], tokens := [recExpired] }

/-- C3 (counterexample): at the concrete expired-record rotation attempt
the handler takes the `TOKEN_EXPIRED` branch, but the result is an
uncaught throw (`sendError` raises a `ReferenceError` before rendering) —
no `TOKEN_EXPIRED` error response is ever returned. -/
theorem expiry_no_response_cex :
    (refreshHandler env0 dbExpired (some tok0) 5 false).1 =
      RefreshResult.errThrown "TOKEN_EXPIRED" "refresh token expired" JsError.referenceError ∧
    RefreshResult.errThrown "TOKEN_EXPIRED" "refresh token expired" JsError.referenceError ≠
      RefreshResult.errRendered
        { status := 401, code := "TOKEN_EXPIRED", message := "refresh token expired" } ∧
    sendError "TOKEN_EXPIRED" "refresh token expired" = Except.error JsError.referenceError := by
  refine ⟨by decide, by decide, rfl⟩

/-- C3 (amended): expiry precedence of the branch, without a rendered
response — a well-formed long-lived credential whose ledger record has
`expires_at` in the past and `revoked_at` null always takes the
`TOKEN_EXPIRED` branch (never the invalid-credential one): the handler
calls `sendError("TOKEN_EXPIRED", "refresh token expired")`, which throws
before rendering, so the attempt ends in an uncaught throw with the
ledger unchanged. -/
theorem expiry_precedence (env : Env) (db : DB) (t : SignedToken) (now : Nat) (fl : Bool)
    (row : RefreshRecord)
    (hv : verifyRefreshToken env t now = Except.ok t.payload)
    (hs : subIdOk t.payload.sub)
    (hfind : findTok db.tokens (hashToken t) = some row)
    (hrev : row.revoked_at = none)
    (hexp : row.expires_at < now) :
    refreshHandler env db (some t) now fl =
      (RefreshResult.errThrown "TOKEN_EXPIRED" "refresh token expired"
        JsError.referenceError, db) := by
  rw [refresh_reduce_tx env db t now fl hv hs]
  have htx : refreshTx env db ((parseInt10 t.payload.sub).getD 0) (hashToken t) now fl =
      Except.error (TxError.coded "TOKEN_EXPIRED") := by
    unfold refreshTx
    rw [hfind]
    simp [hrev, hexp]
  rw [htx]
  rfl

/-- C3 witness: the concrete rotation attempt at time 5 over the expired,
unrevoked record takes the `TOKEN_EXPIRED` branch (and throws). -/
theorem expiry_precedence_witness :
    refreshHandler env0 dbExpired (some tok0) 5 false =
      (RefreshResult.errThrown "TOKEN_EXPIRED" "refresh token expired"
        JsError.referenceError, dbExpired) := by
  exact expiry_precedence env0 dbExpired tok0 5 false recExpired rfl (by decide)
    (by decide) rfl (by decide)

/-- Ledger record for `tok0` already revoked at time 2. -/
def recRevoked : RefreshRecord :=
  { user_id := 1, token_hash := hashToken tok0, expires_at := 1000, revoked_at := some 2 }

/-- Database in which `tok0` was never recorded. -/
def dbUnknown : DB :=
  { users := [user0], tokens := [] }

/-- Database in which the record for `tok0` is revoked. -/
def dbRevoked : DB :=
  { users := [user0], tokens := [recRevoked] }

/-- C4 (counterexample): for the concrete never-existed rotation attempt,
the endpoint produces no error response at all — the handler throws while
attempting the `UNAUTHORIZED` rendering — so the claim's premise that each
case yields an error response with a code and message fails, even though
the revoked case behaves identically. -/
theorem rejection_no_response_cex :
    (refreshHandler env0 dbUnknown (some tok0) 5 false).1 =
      RefreshResult.errThrown "UNAUTHORIZED" "invalid refresh token" JsError.referenceError ∧
    (refreshHandler env0 dbRevoked (some tok0) 5 false).1 =
      (refreshHandler env0 dbUnknown (some tok0) 5 false).1 ∧
    RefreshResult.errThrown "UNAUTHORIZED" "invalid refresh token" JsError.referenceError ≠
      RefreshResult.errRendered
        { status := 401, code := "UNAUTHORIZED", message := "invalid refresh token" } := by
  refine ⟨by decide, by decide, by decide⟩

/-- C4 (amended): rejection-reason indistinguishability without a rendered
response — for a well-formed long-lived credential, the endpoint's
complete observable outcome when the hash matches no ledger record is
identical to its outcome when the matching record is already revoked: in
both cases the handler invokes `sendError` with the same
`UNAUTHORIZED` / "invalid refresh token" arguments and terminates with the
same uncaught throw, rendering nothing — so a caller still cannot
distinguish "never existed" from "already revoked". -/
theorem rejection_indistinguishable (env : Env) (dbA dbB : DB) (t : SignedToken) (now : Nat)
    (flA flB : Bool) (row : RefreshRecord)
    (hv : verifyRefreshToken env t now = Except.ok t.payload)
    (hs : subIdOk t.payload.sub)
    (hA : findTok dbA.tokens (hashToken t) = none)
    (hB : findTok dbB.tokens (hashToken t) = some row)
    (hrev : row.revoked_at ≠ none) :
    (refreshHandler env dbA (some t) now flA).1 = (refreshHandler env dbB (some t) now flB).1 ∧
    (refreshHandler env dbA (some t) now flA).1 =
      RefreshResult.errThrown "UNAUTHORIZED" "invalid refresh token" JsError.referenceError := by
  rw [refresh_err_of_notfound env dbA t now flA hv hs hA,
      refresh_err_of_revoked env dbB t now flB row hv hs hB hrev]
  exact ⟨rfl, rfl⟩

/-- C4 witness: concrete never-existed vs already-revoked rotation attempts
produce the identical outcome. -/
theorem rejection_indistinguishable_witness :
    (refreshHandler env0 dbUnknown (some tok0) 5 false).1 =
      (refreshHandler env0 dbRevoked (some tok0) 5 false).1 ∧
    (refreshHandler env0 dbUnknown (some tok0) 5 false).1 =
      RefreshResult.errThrown "UNAUTHORIZED" "invalid refresh token" JsError.referenceError := by
  exact rejection_indistinguishable env0 dbUnknown dbRevoked tok0 5 false false recRevoked
    rfl (by decide) (by decide) (by decide) (by decide)

/-- A refresh token whose `sub` is non-numeric. -/
def tokBadSub : SignedToken :=
  signRefreshToken env0 { sub := "abc", role := "USER" } 0

/-- A refresh token whose `sub` is the string "0". -/
def tokZeroSub : SignedToken :=
  signRefreshToken env0 { sub := "0", role := "USER" } 0

/-- C10 (counterexample): for the concrete well-signed token with a
non-numeric `sub`, the ledger is untouched but the endpoint does not
return the unauthorized error: its `sendError("UNAUTHORIZED", …)` call
throws before rendering, so the request gets no response. -/
theorem malformed_sub_no_response_cex :
    (refreshHandler env0 db0 (some tokBadSub) 1 false).1 =
      RefreshResult.errThrown "UNAUTHORIZED" "invalid refresh token" JsError.referenceError ∧
    (refreshHandler env0 db0 (some tokBadSub) 1 false).2 = db0 ∧
    RefreshResult.errThrown "UNAUTHORIZED" "invalid refresh token" JsError.referenceError ≠
      RefreshResult.errRendered
        { status := 401, code := "UNAUTHORIZED", message := "invalid refresh token" } := by
  refine ⟨by decide, by decide, by decide⟩

/-- C10 (amended): a rotation request whose credential passes
signature/expiry verification but whose `sub` claim does not parse to a
nonzero integer is rejected before any ledger access — for every database
state the handler takes the unauthorized branch, whose `sendError` call
throws before rendering (uncaught throw, no response), and the database is
returned unchanged. -/
theorem malformed_sub_rejected (env : Env) (db : DB) (t : SignedToken) (now : Nat) (fl : Bool)
    (hv : verifyRefreshToken env t now = Except.ok t.payload)
    (hbad : ¬ subIdOk t.payload.sub) :
    refreshHandler env db (some t) now fl =
      (RefreshResult.errThrown "UNAUTHORIZED" "invalid refresh token"
        JsError.referenceError, db) := by
  exact refresh_err_of_badsub env db t now fl hv hbad

/-- C10 witness: concrete well-signed tokens with `sub = "abc"` and
`sub = "0"` are both rejected on the unauthorized branch, ledger
untouched. -/
theorem malformed_sub_rejected_witness :
    refreshHandler env0 db0 (some tokBadSub) 1 false =
      (RefreshResult.errThrown "UNAUTHORIZED" "invalid refresh token"
        JsError.referenceError, db0) ∧
    refreshHandler env0 db0 (some tokZeroSub) 1 false =
      (RefreshResult.errThrown "UNAUTHORIZED" "invalid refresh token"
        JsError.referenceError, db0) := by
  constructor
  · exact malformed_sub_rejected env0 db0 tokBadSub 1 false rfl (by decide)
  · exact malformed_sub_rejected env0 db0 tokZeroSub 1 false rfl (by decide)

/-- C8: kind separation — when the two signing secrets are distinct, a
token signed with the short-lived (access) secret never passes long-lived
(refresh) verification and vice versa: both fail as invalid
(`JsonWebTokenError`), regardless of issue times or verification time. -/
theorem kind_separation (env : Env) (p q : JwtPayload) (n1 n2 nv : Nat)
    (hne : env.accessSecret ≠ env.refreshSecret) :
    verifyRefreshToken env (signAccessToken env p n1) nv =
      Except.error JwtError.JsonWebTokenError ∧
    verifyAccessToken env (signRefreshToken env q n2) nv =
      Except.error JwtError.JsonWebTokenError := by
  constructor
  · unfold verifyRefreshToken signAccessToken jwtSign jwtVerify
    simp [hne]
  · unfold verifyAccessToken signRefreshToken jwtSign jwtVerify
    simp [hne.symm]

/-- C8 witness: with the concrete distinct secrets of `env0`, a wrong-kind
token of each kind is rejected as invalid. -/
theorem kind_separation_witness :
    env0.accessSecret ≠ env0.refreshSecret ∧
    verifyRefreshToken env0 (signAccessToken env0 payload0 0) 1 =
      Except.error JwtError.JsonWebTokenError ∧
    verifyAccessToken env0 (signRefreshToken env0 payload0 0) 1 =
      Except.error JwtError.JsonWebTokenError := by
  have h := kind_separation env0 payload0 payload0 0 0 1 (by decide)
  exact ⟨by decide, h.1, h.2⟩

/-- C5 (counterexample): when the Redis operation fails, the middleware
does not let the request proceed — the catch forwards the error via
`next(err)`, and the error middleware itself throws while attempting to
render (it passes the numeric status 500 as the error code), so not even
a degraded-mode JSON signal is produced. -/
theorem rate_limit_fail_open_cex :
    ((rateLimitMiddleware 60 5 "login:1.2.3.4" [] 0 StoreFail.failIncr).1).allowed = false ∧
    (rateLimitMiddleware 60 5 "login:1.2.3.4" [] 0 StoreFail.failIncr).1 =
      RLResult.nextErr JsError.storeError ∧
    errorHandler "Error" = Except.error (JsError.unknownErrorCode "500") := by
  refine ⟨by decide, by decide, rfl⟩

/-- C5 (amended): for every gated request, if the shared counter store
operation fails the rate limiter does not allow the request — the catch
forwards the error via `next(err)` (fail closed); the error middleware's
own `sendError` then throws (`Unknown error code: 500`), so Express's
default handler answers a plain 500 with no taxonomy body and no
degraded-mode signal.  A failure at the `incr` leaves the store unchanged,
but a failure at the `expire` of a freshly created counter leaves the
incremented counter behind with no TTL. -/
theorem rate_limit_fail_closed (windowSec maxCount : Nat) (key : String) (st : RedisState)
    (now : Nat) :
    ((rateLimitMiddleware windowSec maxCount key st now StoreFail.failIncr).1 =
        RLResult.nextErr JsError.storeError ∧
      (rateLimitMiddleware windowSec maxCount key st now StoreFail.failIncr).2 = st ∧
      ((rateLimitMiddleware windowSec maxCount key st now StoreFail.failIncr).1).allowed
          = false) ∧
    (redisGet st key now = none →
      (rateLimitMiddleware windowSec maxCount key st now StoreFail.failExpire).1 =
        RLResult.nextErr JsError.storeError ∧
      (rateLimitMiddleware windowSec maxCount key st now StoreFail.failExpire).2 =
        redisSet st key { count := 1, expiresAt := none } ∧
      ((rateLimitMiddleware windowSec maxCount key st now StoreFail.failExpire).1).allowed
          = false) ∧
    errorHandler "Error" = Except.error (JsError.unknownErrorCode "500") ∧
    expressFinalStatus (errorHandler "Error") = 500 := by
  refine ⟨⟨rfl, rfl, rfl⟩, ?_, rfl, rfl⟩
  intro hget
  have hstep : rateLimitMiddleware windowSec maxCount key st now StoreFail.failExpire =
      (RLResult.nextErr JsError.storeError, redisSet st key { count := 1, expiresAt := none }) := by
    unfold rateLimitMiddleware redisIncr
    rw [hget]
    simp
  rw [hstep]
  exact ⟨rfl, rfl, rfl⟩

/-- C5 witness: concrete instantiation of the expire-failure case on an
empty store — the request is not allowed and the counter is left behind
without a TTL. -/
theorem rate_limit_fail_closed_witness :
    (rateLimitMiddleware 60 5 "k" [] 0 StoreFail.failExpire).1 =
      RLResult.nextErr JsError.storeError ∧
    (rateLimitMiddleware 60 5 "k" [] 0 StoreFail.failExpire).2 =
      redisSet [] "k" { count := 1, expiresAt := none } := by
  have h := (rate_limit_fail_closed 60 5 "k" [] 0).2.1 (by decide)
  exact ⟨h.1, h.2.1⟩

/-- First request for a key in an empty store: counter created at 1, TTL
set in the same pass, request allowed. -/
theorem rl_first (key : String) (windowSec maxCount now : Nat) (h : 1 ≤ maxCount) :
    rateLimitMiddleware windowSec maxCount key [] now StoreFail.noFail =
      (RLResult.next maxCount (maxCount - 1) 1,
       [(key, { count := 1, expiresAt := some (now + windowSec) })]) := by
  unfold rateLimitMiddleware redisIncr redisExpire redisGet redisSet
  simp [List.find?, Nat.not_lt.mpr h]

/-- A request while the counter is alive (`now < e`) and not the creating
request (`c ≠ 0`), within quota. -/
theorem rl_live_allowed (key : String) (windowSec maxCount now c e : Nat)
    (halive : now < e) (hc : c ≠ 0) (hle : ¬ maxCount < c + 1) :
    rateLimitMiddleware windowSec maxCount key [(key, { count := c, expiresAt := some e })]
        now StoreFail.noFail =
      (RLResult.next maxCount (maxCount - (c + 1)) (c + 1),
       [(key, { count := c + 1, expiresAt := some e })]) := by
  unfold rateLimitMiddleware redisIncr redisExpire redisGet redisSet
  simp [List.find?, halive, hle, hc]

/-- A request while the counter is alive, over quota: the middleware calls
`sendError("TOO_MANY_REQUESTS", …)`, which throws inside the try, so the
catch forwards the `ReferenceError` via `next(err)` — the request is not
allowed, but no rate-limited response is rendered. -/
theorem rl_live_blocked (key : String) (windowSec maxCount now c e : Nat)
    (halive : now < e) (hc : c ≠ 0) (hgt : maxCount < c + 1) :
    rateLimitMiddleware windowSec maxCount key [(key, { count := c, expiresAt := some e })]
        now StoreFail.noFail =
      (RLResult.nextErr JsError.referenceError,
       [(key, { count := c + 1, expiresAt := some e })]) := by
  have hsend : sendError "TOO_MANY_REQUESTS" "rate limit exceeded" =
      Except.error JsError.referenceError := rfl
  unfold rateLimitMiddleware redisIncr redisExpire redisGet redisSet
  simp [List.find?, halive, hgt, hc, hsend]

/-- A request after the counter's TTL has elapsed (`e ≤ now`): the key is
recreated at 1 with a fresh TTL, request allowed. -/
theorem rl_dead (key : String) (windowSec maxCount now c e : Nat)
    (hdead : e ≤ now) (h : 1 ≤ maxCount) :
    rateLimitMiddleware windowSec maxCount key [(key, { count := c, expiresAt := some e })]
        now StoreFail.noFail =
      (RLResult.next maxCount (maxCount - 1) 1,
       [(key, { count := 1, expiresAt := some (now + windowSec) })]) := by
  unfold rateLimitMiddleware redisIncr redisExpire redisGet redisSet
  simp [List.find?, Nat.not_lt.mpr hdead, Nat.not_lt.mpr h]

/-- Run a sequence of timed checks of one key through the rate limiter
(window 60, max 5, no store failure), collecting each outcome. -/
def rlTrace (key : String) (times : List Nat) : List RLResult × RedisState :=
  times.foldl
    (fun acc now =>
      let r := rateLimitMiddleware 60 5 key acc.2 now StoreFail.noFail
      (acc.1 ++ [r.1], r.2))
    ([], [])

/-- C6 (counterexample): the sixth consecutive check of a key is not
rejected with the rate-limited error — the middleware's
`sendError("TOO_MANY_REQUESTS", …)` throws and is caught and forwarded via
`next(err)`, exactly like a store failure, so no `TOO_MANY_REQUESTS`
response is rendered. -/
theorem fixed_window_sixth_cex :
    (rateLimitMiddleware 60 5 "k" (rlTrace "k" [0, 1, 2, 3, 4]).2 5 StoreFail.noFail).1 =
      RLResult.nextErr JsError.referenceError ∧
    RLResult.nextErr JsError.referenceError ≠
      RLResult.rejected
        { status := 429, code := "TOO_MANY_REQUESTS", message := "rate limit exceeded" } ∧
    sendError "TOO_MANY_REQUESTS" "rate limit exceeded" = Except.error JsError.referenceError := by
  refine ⟨by decide, by decide, rfl⟩

/-- C6 (amended): with `maxCount = 5`, `windowSeconds = 60`, six
consecutive checks of the same key inside one window allow the first five
(with `remaining` 4,3,2,1,0); the sixth takes the over-quota branch, but
instead of a rendered `TOO_MANY_REQUESTS` rejection its `sendError` throws
and is forwarded via `next(err)` (the request still does not reach the
handler); once the window has elapsed, the next check is allowed again and
reports `remaining = 4`. -/
theorem fixed_window_quota (key : String) (n0 n1 n2 n3 n4 n5 m : Nat)
    (h1 : n1 < n0 + 60) (h2 : n2 < n0 + 60) (h3 : n3 < n0 + 60)
    (h4 : n4 < n0 + 60) (h5 : n5 < n0 + 60) (hm : n0 + 60 ≤ m) :
    (rlTrace key [n0, n1, n2, n3, n4, n5]).1 =
      [RLResult.next 5 4 1, RLResult.next 5 3 2, RLResult.next 5 2 3,
       RLResult.next 5 1 4, RLResult.next 5 0 5, RLResult.nextErr JsError.referenceError] ∧
    (rateLimitMiddleware 60 5 key (rlTrace key [n0, n1, n2, n3, n4, n5]).2 m
        StoreFail.noFail).1 =
      RLResult.next 5 4 1 := by
  have s1 := rl_first key 60 5 n0 (by norm_num)
  have s2 := rl_live_allowed key 60 5 n1 1 (n0 + 60) h1 (by norm_num) (by norm_num)
  have s3 := rl_live_allowed key 60 5 n2 2 (n0 + 60) h2 (by norm_num) (by norm_num)
  have s4 := rl_live_allowed key 60 5 n3 3 (n0 + 60) h3 (by norm_num) (by norm_num)
  have s5 := rl_live_allowed key 60 5 n4 4 (n0 + 60) h4 (by norm_num) (by norm_num)
  have s6 := rl_live_blocked key 60 5 n5 5 (n0 + 60) h5 (by norm_num) (by norm_num)
  have s7 := rl_dead key 60 5 m 6 (n0 + 60) hm (by norm_num)
  constructor
  · simp [rlTrace, List.foldl, s1, s2, s3, s4, s5, s6]
  · simp [rlTrace, List.foldl, s1, s2, s3, s4, s5, s6, s7]

/-- C6 witness: the concrete trace at times 0,1,2,3,4,5 and then 60. -/
theorem fixed_window_quota_witness :
    (rlTrace "k" [0, 1, 2, 3, 4, 5]).1 =
      [RLResult.next 5 4 1, RLResult.next 5 3 2, RLResult.next 5 2 3,
       RLResult.next 5 1 4, RLResult.next 5 0 5, RLResult.nextErr JsError.referenceError] ∧
    (rateLimitMiddleware 60 5 "k" (rlTrace "k" [0, 1, 2, 3, 4, 5]).2 60 StoreFail.noFail).1 =
      RLResult.next 5 4 1 := by
  exact fixed_window_quota "k" 0 1 2 3 4 5 60 (by norm_num) (by norm_num) (by norm_num)
    (by norm_num) (by norm_num) (by norm_num)

/-- C7 (counterexample): the backend gate resolves the workspace before the
ADMIN bypass, so for a scope id with no workspace row an ADMIN identity is
not let through: the gate takes the `RESOURCE_NOT_FOUND` branch, whose
`sendError` throws, and the catch forwards the error via `next(err)` —
the bypass does not succeed for *any* scope id. -/
theorem admin_bypass_backend_cex :
    Backend.requireWorkspaceMember true (some { userId := 1, role := "ADMIN" }) "7"
      { workspaces := [], members := [] } =
      Backend.GateResult.nextErr "RESOURCE_NOT_FOUND" "workspace not found"
        JsError.referenceError ∧
    (Backend.requireWorkspaceMember true (some { userId := 1, role := "ADMIN" }) "7"
      { workspaces := [], members := [] }).isNext = false := by
  refine ⟨by decide, by decide⟩

/-- C7 (amended): with `allowAdmin` enabled and an ADMIN identity —
(i) the backend gate succeeds for every scope id whose workspace exists,
regardless of the membership table (no membership lookup: the result is
identical for any two membership tables, including an empty one);
(ii) the `src/src` gate succeeds for every valid scope id with no database
access at all; but the backend gate requires the workspace to resolve —
for a missing workspace it takes the not-found branch and forwards the
thrown error via `next(err)` instead of succeeding (per the
counterexample). -/
theorem admin_bypass (a : AuthCtx) (raw : String) (wid : Int) (ws : Workspace)
    (wss : List Workspace) (mem1 mem2 : List WorkspaceMember)
    (hrole : a.role = "ADMIN") (huid : a.userId ≠ 0)
    (hp : parseInt10 raw = some wid) (hpos : 0 < wid)
    (hws : findWorkspace wss wid = some ws) :
    Backend.requireWorkspaceMember true (some a) raw { workspaces := wss, members := mem1 } =
      Backend.GateResult.next ws ∧
    Backend.requireWorkspaceMember true (some a) raw { workspaces := wss, members := mem1 } =
      Backend.requireWorkspaceMember true (some a) raw { workspaces := wss, members := mem2 } ∧
    (∀ db : WsDB, Core.requireWorkspaceMember true (some a) raw db =
      Core.GateResult.next wid "ADMIN") := by
  have hneg : ¬ wid ≤ 0 := by omega
  have hne0 : wid ≠ 0 := by omega
  have hback : ∀ mem : List WorkspaceMember,
      Backend.requireWorkspaceMember true (some a) raw { workspaces := wss, members := mem } =
        Backend.GateResult.next ws := by
    intro mem
    simp [Backend.requireWorkspaceMember, huid, hp, hneg, hws, hrole]
  refine ⟨hback mem1, (hback mem1).trans (hback mem2).symm, ?_⟩
  intro db
  simp [Core.requireWorkspaceMember, hp, hne0, huid, hrole]

/-- C7 witness: concrete ADMIN identity, workspace 7 existing with an
empty membership table for the backend gate, and an arbitrary database for
the `src/src` gate. -/
theorem admin_bypass_witness :
    Backend.requireWorkspaceMember true (some { userId := 2, role := "ADMIN" }) "7"
      { workspaces := [{ id := 7, owner_id := 9 }], members := [] } =
      Backend.GateResult.next { id := 7, owner_id := 9 } ∧
    Core.requireWorkspaceMember true (some { userId := 2, role := "ADMIN" }) "7"
      { workspaces := [], members := [] } =
      Core.GateResult.next 7 "ADMIN" := by
  have h := admin_bypass { userId := 2, role := "ADMIN" } "7" 7 { id := 7, owner_id := 9 }
    [{ id := 7, owner_id := 9 }] [] [{ workspace_id := 7, user_id := 3, member_role := "MEMBER" }]
    rfl (by decide) (by decide) (by decide) (by decide)
  exact ⟨h.1, h.2.2 { workspaces := [], members := [] }⟩

theorem insertToken_nodup (l : List RefreshRecord) (row : RefreshRecord)
    (l2 : List RefreshRecord)
    (hnd : (l.map (fun r => r.token_hash)).Nodup)
    (hins : insertToken l row = Except.ok l2) :
    (l2.map (fun r => r.token_hash)).Nodup := by
  obtain ⟨hex, hl2⟩ := insertToken_ok_elim l row l2 hins
  subst hl2
  rw [List.map_append]
  rw [List.nodup_append]
  refine ⟨hnd, List.nodup_singleton _, ?_⟩
  intro x hx
  simp only [List.mem_map] at hx
  obtain ⟨r, hr, hxr⟩ := hx
  simp [hashExists] at hex
  intro hmem
  simp at hmem
  rw [hmem] at hxr
  exact hex r hr hxr

/-- Every path of the login handler either leaves the database unchanged
or extends the ledger through a successful (uniqueness-checked) insert. -/
theorem loginCore_db_cases (env : Env) (cmp : String → String → Bool) (db : DB)
    (email pw : String) (now : Nat) :
    (loginCore env cmp db email pw now).2 = db ∨
    ∃ row l2, insertToken db.tokens row = Except.ok l2 ∧
      (loginCore env cmp db email pw now).2 = { db with tokens := l2 } := by
  unfold loginCore
  dsimp only
  split
  · exact Or.inl rfl
  · split
    · exact Or.inl rfl
    · split
      · exact Or.inl rfl
      · split
        · split
          · exact Or.inl rfl
          next l2 hins => exact Or.inr ⟨_, l2, hins, rfl⟩
        · exact Or.inl rfl

/-- Concrete `bcrypt.compare` oracle matching the fixture user. -/
def cmp0 : String → String → Bool :=
  fun p h => p == "pw" && h == "H"

/-- C9 (counterexample): logging in when the freshly signed refresh
token's hash is already in the ledger makes the insert fail with the
uniqueness violation, but no conflict error is produced: the route's catch
attempts `INTERNAL_SERVER_ERROR` and its `sendError` throws before
rendering, and the error middleware's own `DUPLICATE_RESOURCE` branch
throws `Unknown error code: 409` — neither a conflict response nor any
other JSON error can be rendered. -/
theorem duplicate_hash_conflict_cex :
    (loginCore env0 cmp0 db0 "u1@test.com" "pw" 0).1 =
      LoginResult.errThrown "INTERNAL_SERVER_ERROR" "failed to login" JsError.referenceError ∧
    (loginCore env0 cmp0 db0 "u1@test.com" "pw" 0).2 = db0 ∧
    errorHandler "SequelizeUniqueConstraintError" =
      Except.error (JsError.unknownErrorCode "409") := by
  refine ⟨by decide, by decide, rfl⟩

/-- C9 (amended): storing a long-lived credential record whose hash is
already in the ledger fails with a uniqueness violation — it is not
silently ignored and the ledger keeps the at-most-one-record-per-hash
invariant — but it is not mapped to a conflict error: the login route's
catch attempts `INTERNAL_SERVER_ERROR` / "failed to login" and its
`sendError` throws before rendering (uncaught throw, no response, database
unchanged), and the generic error middleware's conflict branch itself
throws `Unknown error code: 409` because it passes the numeric status as
the code, so a `DUPLICATE_RESOURCE` response can never be rendered
either. -/
theorem duplicate_hash_conflict (env : Env) (cmp : String → String → Bool) (db : DB)
    (email pw : String) (now : Nat) (u : UserRow) (ph : String)
    (hu : findUserByEmail db.users email = some u)
    (hact : u.status = "ACTIVE")
    (hph : u.password_hash = some ph)
    (hcmp : cmp pw ph = true)
    (hdup : hashExists db.tokens
      (hashToken (signRefreshToken env { sub := toString u.id, role := u.role } now)) = true) :
    loginCore env cmp db email pw now =
      (LoginResult.errThrown "INTERNAL_SERVER_ERROR" "failed to login"
        JsError.referenceError, db) ∧
    (∀ l : List RefreshRecord, ∀ row : RefreshRecord,
      hashExists l row.token_hash = true → insertToken l row = Except.error ()) ∧
    (∀ dbX : DB, (dbX.tokens.map (fun r => r.token_hash)).Nodup →
      (((loginCore env cmp dbX email pw now).2).tokens.map (fun r => r.token_hash)).Nodup) ∧
    errorHandler "SequelizeUniqueConstraintError" =
      Except.error (JsError.unknownErrorCode "409") := by
  have hins := insertToken_dup db.tokens
    { user_id := u.id,
      token_hash := hashToken (signRefreshToken env { sub := toString u.id, role := u.role } now),
      expires_at := now + env.refreshTtl, revoked_at := none } hdup
  have hlc : loginCatch =
      LoginResult.errThrown "INTERNAL_SERVER_ERROR" "failed to login"
        JsError.referenceError := rfl
  refine ⟨?_, fun l row h => insertToken_dup l row h, ?_, rfl⟩
  · unfold loginCore
    rw [hu]
    simp [hact, hph, hcmp, hins, hlc]
  · intro dbX hnd
    rcases loginCore_db_cases env cmp dbX email pw now with hsame | ⟨row, l2, hok, heq⟩
    · rw [hsame]
      exact hnd
    · rw [heq]
      exact insertToken_nodup dbX.tokens row l2 hnd hok

/-- C9 witness: concrete instantiation at the fixture — the duplicate
insert is refused, the login ends in the thrown INTERNAL_SERVER_ERROR
attempt, and the hash-uniqueness invariant is preserved on the fixture
ledger. -/
theorem duplicate_hash_conflict_witness :
    loginCore env0 cmp0 db0 "u1@test.com" "pw" 0 =
      (LoginResult.errThrown "INTERNAL_SERVER_ERROR" "failed to login"
        JsError.referenceError, db0) ∧
    ((loginCore env0 cmp0 db0 "u1@test.com" "pw" 0).2.tokens.map
      (fun r => r.token_hash)).Nodup := by
  have h := duplicate_hash_conflict env0 cmp0 db0 "u1@test.com" "pw" 0 user0 "H"
    (by decide) rfl rfl (by decide) (by decide)
  exact ⟨h.1, h.2.2.1 db0 (by decide)⟩
